import Mathlib

/-!
Verification of the GMGN top-pumping-tokens proxy service (src/main.py).

Shallow embedding:
* JSON values (as produced by Python's json parsing) are the inductive `JValue`;
  Python dicts become ordered association lists, which also models the dict's
  insertion-iteration order.
* The network is a function `upstream : String → UpstreamOutcome` from the
  request URL to the observed outcome of the single GET issued for it
  (a network-level error, or a status code plus an optionally JSON-parsable body).
  `get_top_pumping_tokens` consults it exactly once, which models the
  code's single attempt with no retries.
* Numbers are rationals. Python formats the exact binary double with
  round-half-even; the fixed-point renderer below rounds the rational half-up.
  On every decimal input exercised here the scaled value is an exact integer,
  so no tie arises and the two rounding rules agree.
* `datetime.fromtimestamp(e).strftime(%Y-%m-%d %H:%M:%S)` renders in the host's
  local timezone, so the theorems are parametric in a rendering function
  `fmtTime : ℚ → String`; `render_local_time` is a concrete stand-in used to
  instantiate closed statements.
* Python exceptions escaping a function are modelled with `Except String`.
-/

/-- JSON-like values as produced by Python's `json` module: `None`, booleans,
numbers, strings, lists, dicts (ordered association lists). -/
inductive JValue where
  | null
  | bool (b : Bool)
  | num (q : ℚ)
  | str (s : String)
  | arr (items : List JValue)
  | obj (entries : List (String × JValue))

/-- First binding of `key` in an association list; models Python dict lookup
(dict keys are unique, so first-match agrees with the dict). -/
def listLookup : List (String × JValue) → String → Option JValue
  | [], _ => none
  | (k, v) :: rest, key => if k = key then some v else listLookup rest key

/-- Python's `token.get(key, dflt)`. -/
def jget (entries : List (String × JValue)) (key : String) (dflt : JValue) : JValue :=
  (listLookup entries key).getD dflt

/-- Numeric view of a Python value: ints/floats are numbers, and `bool` is an
`int` subclass in Python, so `True`/`False` are numeric (1/0). Everything else
(strings, None, lists, dicts) is not numeric. -/
def toNum? : JValue → Option ℚ
  | .num q => some q
  | .bool b => some (if b then 1 else 0)
  | _ => none

/-- Lines 29-31 of src/main.py: iterate the entries of the `data` dict in
order and return the first value that is a list. -/
def findFirstList : List (String × JValue) → Option (List JValue)
  | [] => none
  | (_, v) :: rest =>
    match v with
    | .arr l => some l
    | _ => findFirstList rest

/-- Lines 27-40 of src/main.py: the shape-resolution step applied to the
parsed JSON body `data`. Every failure arm prints a diagnostic and returns
the empty list. -/
def extract_tokens (data : JValue) : List JValue :=
  match data with
  | .obj entries =>
    match listLookup entries "data" with
    | some (.obj inner) =>
      match findFirstList inner with
      | some l => l
      | none => []
    | some _ => []
    | none => []
  | _ => []

/-- Outcome of the single outbound GET: `requestError` covers every
network-level failure raised as `httpx.RequestError` (timeout, connection
error, DNS failure); otherwise a response arrives with a status code and a
body that either parses as JSON (`some`) or raises `json.JSONDecodeError`
(`none`). -/
inductive UpstreamOutcome where
  | requestError
  | response (status : Nat) (body : Option JValue)

/-- Line 18 of src/main.py: `limit = min(50, max(1, limit))`. -/
def clamp_limit (limit : Int) : Int :=
  min 50 (max 1 limit)

/-- Line 19 of src/main.py: the upstream URL templated with the clamped
limit. -/
def request_url (limit : Int) : String :=
  "https://gmgn.ai/defi/quotation/v1/rank/sol/pump?limit=" ++
    toString (clamp_limit limit) ++ "&orderby=progress&direction=desc&pump=true"

/-- Lines 22-52 of src/main.py after the URL is built: `raise_for_status`
raises `httpx.HTTPStatusError` for any non-2xx status (caught, returns `[]`);
`response.json()` raises `json.JSONDecodeError` on a non-JSON body (caught,
returns `[]`); a network failure raises `httpx.RequestError` (caught, returns
`[]`); on a 2xx JSON body the shape-resolution step runs. -/
def handle_response : UpstreamOutcome → List JValue
  | .requestError => []
  | .response status body =>
    if status < 200 || 299 < status then []
    else
      match body with
      | none => []
      | some data => extract_tokens data

/-- Lines 8-52 of src/main.py: clamp the limit, build the URL, perform the
single GET against the network (`upstream`), and handle the outcome. The
function is total: every failure path returns `[]` rather than raising. -/
def get_top_pumping_tokens (limit : Int) (upstream : String → UpstreamOutcome) : List JValue :=
  handle_response (upstream (request_url limit))

/-- Written from the spec's words (shape-resolution rule, spec section 4.1):
scan the entries of the `data` mapping in iteration order and return the first
entry whose value is a sequence, skipping non-sequence entries; empty if none. -/
def spec_first_sequence : List (String × JValue) → List JValue
  | [] => []
  | (_, .arr l) :: _ => l
  | _ :: rest => spec_first_sequence rest

/-- Written from the spec's words, to be compared with `extract_tokens`:
if the top-level value is a mapping containing key `data` whose value is a
mapping, return the first sequence-valued entry; in every other case return
an empty sequence. -/
def spec_extract (body : JValue) : List JValue :=
  match body with
  | .obj entries =>
    match listLookup entries "data" with
    | some (.obj inner) => spec_first_sequence inner
    | _ => []
  | _ => []

/-- Left-pad a digit string with zeros to length `prec`. -/
def padZeros (prec : Nat) (s : String) : String :=
  String.mk (List.replicate (prec - s.length) '0') ++ s

/-- Fixed-point rendering `.<prec>f` of the fraction `num / den`, computed on
numerator and denominator: round the magnitude scaled by `10 ^ prec` to the
nearest integer (half away from zero) and print `sign intpart.fracpart`.
Python rounds the exact double half-even; the two agree whenever the scaled
value is exact, which holds for every input used below. -/
def fpCore (prec : Nat) (num : Int) (den : Nat) : String :=
  let sign := if num < 0 then "-" else ""
  let n := (num.natAbs * 10 ^ prec * 2 + den) / (2 * den)
  if prec = 0 then sign ++ toString n
  else sign ++ toString (n / 10 ^ prec) ++ "." ++ padZeros prec (toString (n % 10 ^ prec))

/-- Python's fixed-point format spec `.<prec>f` on a rational. -/
def fixedPoint (prec : Nat) (q : ℚ) : String :=
  fpCore prec q.num q.den

/-- Insert a comma before every digit whose distance from the right end is a
positive multiple of three (Python's thousands grouping for the integer part). -/
def withCommas (s : String) : String :=
  let cs := s.toList
  let n := cs.length
  String.mk ((cs.enum.map fun p =>
    if 0 < p.1 && (n - p.1) % 3 == 0 then [',', p.2] else [p.2]).flatten)

/-- Python's format spec `,.2f`: two fixed decimals with thousands grouping
in the integer part. -/
def commaFixed2 (q : ℚ) : String :=
  let sign := if q.num < 0 then "-" else ""
  let n := (q.num.natAbs * 100 * 2 + q.den) / (2 * q.den)
  sign ++ withCommas (toString (n / 100)) ++ "." ++ padZeros 2 (toString (n % 100))

/-- Python's format spec `.2%`: multiply by 100, render with two fixed
decimals, append a percent sign. The multiplication happens on the numerator,
which represents the same rational as `q * 100`. -/
def percent2 (q : ℚ) : String :=
  fpCore 2 (q.num * 100) q.den ++ "%"

/-- Plain rendering of a number under f-string interpolation. Integers print
as their digits. Python renders a non-integer float as its shortest
round-trip decimal; no specification claim interpolates a non-integer
plainly, so that case falls back to the rational's own printer. -/
def ratPlainStr (q : ℚ) : String :=
  if q.den = 1 then toString q.num else toString q

/-- Plain f-string interpolation `str(v)` of a Python value. Python renders
nested lists/dicts with their full repr; no specification claim interpolates
a collection plainly, so those cases are elided markers. -/
def pyStr : JValue → String
  | .null => "None"
  | .bool b => if b then "True" else "False"
  | .num q => ratPlainStr q
  | .str s => s
  | .arr _ => "[...]"
  | .obj _ => "\x7b...\x7d"

/-- Apply a numeric format spec: succeeds on a numeric value, raises
(ValueError in Python) on any other value — including the `N/A` string
default that `.get` substitutes for an absent key. -/
def expectNum (err : String) (v : JValue) : Except String ℚ :=
  match toNum? v with
  | some q => pure q
  | none => Except.error err

/-- Lines 54-80 of src/main.py. `fmtTime` stands for
`datetime.fromtimestamp(·).strftime(%Y-%m-%d %H:%M:%S)` (host-local time).
Binding order follows Python's evaluation order: the two timestamps are
computed first (lines 64-65), then the f-string fields left to right; the
first failing field determines the exception. A non-dict argument fails at
the first `.get` (AttributeError). -/
def format_token_info (fmtTime : ℚ → String) (token : JValue) : Except String String := do
  let entries ← match token with
    | .obj es => pure es
    | _ => Except.error "AttributeError: object has no attribute get"
  let ctq ← expectNum "TypeError: fromtimestamp requires a number"
    (jget entries "created_timestamp" (.num 0))
  let ltq ← expectNum "TypeError: fromtimestamp requires a number"
    (jget entries "last_trade_timestamp" (.num 0))
  let created_time := fmtTime ctq
  let last_trade_time := fmtTime ltq
  let price ← expectNum "ValueError: Unknown format code f for object of type str"
    (jget entries "price" (.str "N/A"))
  let mcap ← expectNum "ValueError: Cannot specify a comma with s"
    (jget entries "usd_market_cap" (.str "N/A"))
  let progress ← expectNum "ValueError: Unknown format code percent for object of type str"
    (jget entries "progress" (.str "N/A"))
  let vol ← expectNum "ValueError: Cannot specify a comma with s"
    (jget entries "volume_1h" (.str "N/A"))
  pure (String.intercalate "\n"
    [ "Symbol: " ++ pyStr (jget entries "symbol" (.str "N/A"))
    , "Name: " ++ pyStr (jget entries "name" (.str "N/A"))
    , "Price: $" ++ fixedPoint 8 price
    , "Market Cap: $" ++ commaFixed2 mcap
    , "Created: " ++ created_time
    , "Last Trade: " ++ last_trade_time
    , "Progress: " ++ percent2 progress
    , "Holder Count: " ++ pyStr (jget entries "holder_count" (.str "N/A"))
    , "Volume (1h): $" ++ commaFixed2 vol
    , "Price Change (5m): " ++ pyStr (jget entries "price_change_percent5m" (.str "N/A")) ++ "%"
    , "Website: " ++ pyStr (jget entries "website" (.str "N/A"))
    , "Twitter: " ++ pyStr (jget entries "twitter" (.str "N/A"))
    , "Telegram: " ++ pyStr (jget entries "telegram" (.str "N/A"))
    , "--------------------" ])

/-- Response envelope of the `/top-tokens/` handler: the dict
with key `tokens` (a list of formatted blocks) or the dict with key `error`. -/
inductive ApiResponse where
  | tokens (blocks : List String)
  | errorMsg (msg : String)

/-- Line 87 of src/main.py: the handler's default limit when the query
parameter is omitted. -/
def default_limit : Int := 10

/-- Lines 86-93 of src/main.py: fetch, then — if the list is truthy
(non-empty) — format every record and wrap in the tokens envelope, else the
fixed error envelope. A formatting exception escapes the handler (modelled
as `Except.error`), so the tokens envelope is produced only when every
record formats. -/
def get_top_tokens (fmtTime : ℚ → String) (upstream : String → UpstreamOutcome)
    (limit : Int) : Except String ApiResponse := do
  let top_tokens := get_top_pumping_tokens limit upstream
  if top_tokens.isEmpty then
    pure (.errorMsg "No token data retrieved.")
  else do
    let formatted ← top_tokens.mapM (format_token_info fmtTime)
    pure (.tokens formatted)

/-- Concrete stand-in for the host-local timestamp rendering, used only to
instantiate closed statements; all claim theorems about the formatter are
parametric in the rendering function. -/
def render_local_time (q : ℚ) : String :=
  "T" ++ toString q.num

/-- Split a character list at every occurrence of `sep`, accumulating the
current piece in reverse. -/
def splitOnCharAux (sep : Char) : List Char → List Char → List (List Char)
  | [], acc => [acc.reverse]
  | c :: cs, acc =>
    if c == sep then acc.reverse :: splitOnCharAux sep cs []
    else splitOnCharAux sep cs (c :: acc)

/-- Split a character list at every occurrence of `sep`. -/
def splitOnChar (sep : Char) (cs : List Char) : List (List Char) :=
  splitOnCharAux sep cs []

/-- Decompose a URL's query string into key-value pairs: the part after `?`,
split on ampersands, each piece split at its equals sign. -/
def query_params (url : String) : List (String × String) :=
  match splitOnChar '?' url.toList with
  | [_, q] => (splitOnChar '&' q).map fun kv =>
      match splitOnChar '=' kv with
      | [k, v] => (String.mk k, String.mk v)
      | _ => (String.mk kv, "")
  | _ => []

/-- Character-list comparison: the needle matches at the front of the hay. -/
def leadsWith : List Char → List Char → Bool
  | [], _ => true
  | _ :: _, [] => false
  | a :: as, b :: bs => a == b && leadsWith as bs

/-- Character-list containment: the needle occurs contiguously in the hay. -/
def occursIn (needle : List Char) : List Char → Bool
  | [] => leadsWith needle []
  | b :: bs => leadsWith needle (b :: bs) || occursIn needle bs

/-- Substring test on strings. -/
def substrOf (needle hay : String) : Bool :=
  occursIn needle.toList hay.toList

/-- Substring test through the formatter's result: `false` when the formatter
raised. -/
def exceptContains (e : Except String String) (needle : String) : Bool :=
  match e with
  | .ok s => substrOf needle s
  | .error _ => false

/-- Does every list-valued entry of the `data` dict in a JSON body have at
most `n` elements? Vacuously true for bodies of any other shape. -/
def body_lists_le (n : Nat) : JValue → Bool
  | .obj entries =>
    match listLookup entries "data" with
    | some (.obj inner) =>
      inner.all fun p =>
        match p.2 with
        | .arr l => l.length ≤ n
        | _ => true
    | _ => true
  | _ => true

/-- Does every list-valued entry of the `data` dict in the response body have
at most `n` elements? Vacuously true for failures and non-JSON bodies. -/
def data_lists_le (n : Nat) : UpstreamOutcome → Bool
  | .response _ (some j) => body_lists_le n j
  | _ => true

/-- Fixture: a 200 response whose `data` dict holds a non-list entry followed
by a two-element `rank` list (the spec's own worked example). -/
def upstream_rank : String → UpstreamOutcome := fun _ =>
  .response 200 (some (.obj [("data", .obj
    [("x", .str "not a list"), ("rank", .arr [.num 1, .num 2])])]))

/-- Fixture: a 200 response delivering a single record that is the empty
dict, so the formatter's numeric format specs meet their `N/A` defaults. -/
def upstream_empty_record : String → UpstreamOutcome := fun _ =>
  .response 200 (some (.obj [("data", .obj [("rank", .arr [.obj []])])]))

/-- Fixture: a record carrying the four numerically formatted fields (all
zero) and nothing else, so formatting succeeds with every other field at its
placeholder. -/
def record_min_numeric : JValue :=
  .obj [("price", .num 0), ("usd_market_cap", .num 0),
        ("progress", .num 0), ("volume_1h", .num 0)]

/-- Fixture: a 200 response delivering the single record
`record_min_numeric`. -/
def upstream_good : String → UpstreamOutcome := fun _ =>
  .response 200 (some (.obj [("data", .obj [("rank", .arr [record_min_numeric])])]))

/-- Fixture: a plain 500 failure with a well-formed JSON body. -/
def upstream_500 : String → UpstreamOutcome := fun _ =>
  .response 500 (some (.obj [("data", .obj [("rank", .arr [.num 1])])]))

/-- Fixture: a network-level failure (httpx.RequestError). -/
def upstream_neterr : String → UpstreamOutcome := fun _ =>
  .requestError

/-- Fixture: a 200 response whose body is not valid JSON. -/
def upstream_badjson : String → UpstreamOutcome := fun _ =>
  .response 200 none

/-- The block produced for `record_min_numeric` under the `render_local_time`
stand-in (both timestamps default to epoch 0, rendered `T0`). -/
def block_min : String :=
  "Symbol: N/A\nName: N/A\nPrice: $0.00000000\nMarket Cap: $0.00\n" ++
  "Created: T0\nLast Trade: T0\nProgress: 0.00%\nHolder Count: N/A\n" ++
  "Volume (1h): $0.00\nPrice Change (5m): N/A%\nWebsite: N/A\n" ++
  "Twitter: N/A\nTelegram: N/A\n--------------------"

/-- The record of the spec's formatter example: symbol `ABC`, price
0.00000123, progress 0.4567, nothing else. -/
def record_c7 : JValue :=
  .obj [("symbol", .str "ABC"), ("price", .num (mkRat 123 100000000)),
        ("progress", .num (mkRat 4567 10000))]

/-- The record of the spec's formatter example extended with the two missing
numerically formatted fields, so that formatting succeeds. -/
def record_c7_full : JValue :=
  .obj [("symbol", .str "ABC"), ("price", .num (mkRat 123 100000000)),
        ("progress", .num (mkRat 4567 10000)),
        ("usd_market_cap", .num 1000), ("volume_1h", .num 500)]

theorem spec_first_sequence_eq (inner : List (String × JValue)) :
    spec_first_sequence inner = (findFirstList inner).getD [] := by
  induction inner with
  | nil => rfl
  | cons p rest ih =>
    obtain ⟨k, v⟩ := p
    cases v <;> simp [spec_first_sequence, findFirstList, ih]

theorem extract_tokens_eq_spec (j : JValue) : extract_tokens j = spec_extract j := by
  cases j <;> simp only [extract_tokens, spec_extract]
  case obj entries =>
    cases h : listLookup entries "data" with
    | none => rfl
    | some v =>
      cases v <;> try rfl
      case obj inner =>
        show (match findFirstList inner with | some l => l | none => []) =
          spec_first_sequence inner
        rw [spec_first_sequence_eq]
        cases findFirstList inner <;> rfl

theorem clamp_limit_ge_one (L : Int) : 1 ≤ clamp_limit L := by
  unfold clamp_limit
  exact le_min (by norm_num) (le_max_left 1 L)

theorem clamp_limit_le_fifty (L : Int) : clamp_limit L ≤ 50 :=
  min_le_left _ _

theorem query_params_clamped (k : Int) (h1 : 1 ≤ k) (h2 : k ≤ 50) :
    query_params ("https://gmgn.ai/defi/quotation/v1/rank/sol/pump?limit=" ++
      toString k ++ "&orderby=progress&direction=desc&pump=true") =
    [("limit", toString k), ("orderby", "progress"),
     ("direction", "desc"), ("pump", "true")] := by
  interval_cases k <;> decide

theorem query_params_request_url (L : Int) :
    query_params (request_url L) =
    [("limit", toString (clamp_limit L)), ("orderby", "progress"),
     ("direction", "desc"), ("pump", "true")] :=
  query_params_clamped (clamp_limit L) (clamp_limit_ge_one L) (clamp_limit_le_fifty L)

theorem except_isOk_bind {α β : Type} {x : Except String α} {f : α → Except String β}
    (h : (x >>= f).isOk = true) : ∃ a, x = Except.ok a ∧ (f a).isOk = true := by
  cases x with
  | error e => simp [Bind.bind, Except.bind, Except.isOk, Except.toBool] at h
  | ok a => exact ⟨a, rfl, by simpa [Bind.bind, Except.bind] using h⟩

theorem mapM_ok_length {α β : Type} (f : α → Except String β) :
    ∀ (l : List α) (l' : List β), l.mapM f = Except.ok l' → l'.length = l.length := by
  intro l
  induction l with
  | nil =>
    intro l' h
    simp only [List.mapM_nil] at h
    cases h
    rfl
  | cons a as ih =>
    intro l' h
    rw [List.mapM_cons] at h
    cases hfa : f a with
    | error e => rw [hfa] at h; simp [Bind.bind, Except.bind] at h
    | ok b =>
      rw [hfa] at h
      cases hbs : as.mapM f with
      | error e => rw [hbs] at h; simp [Bind.bind, Except.bind, Pure.pure, Except.pure] at h
      | ok bs =>
        rw [hbs] at h
        simp [Bind.bind, Except.bind, Pure.pure, Except.pure] at h
        cases h
        simp [ih bs hbs]

theorem expectNum_ok {err : String} {v : JValue} {q : ℚ}
    (h : expectNum err v = Except.ok q) : toNum? v = some q := by
  unfold expectNum at h
  cases hv : toNum? v with
  | none => rw [hv] at h; cases h
  | some p => rw [hv] at h; cases h; rfl

theorem format_isOk_fields (fmtTime : ℚ → String) (token : List (String × JValue))
    (h : (format_token_info fmtTime (.obj token)).isOk = true) :
    (toNum? (jget token "price" (.str "N/A"))).isSome = true ∧
    (toNum? (jget token "usd_market_cap" (.str "N/A"))).isSome = true ∧
    (toNum? (jget token "progress" (.str "N/A"))).isSome = true ∧
    (toNum? (jget token "volume_1h" (.str "N/A"))).isSome = true := by
  obtain ⟨es, hes, h⟩ := except_isOk_bind h
  have hes' : token = es := by cases hes; rfl
  subst hes'
  obtain ⟨ctq, hct, h⟩ := except_isOk_bind h
  obtain ⟨ltq, hlt, h⟩ := except_isOk_bind h
  obtain ⟨pq, hp, h⟩ := except_isOk_bind h
  obtain ⟨mq, hm, h⟩ := except_isOk_bind h
  obtain ⟨gq, hg, h⟩ := except_isOk_bind h
  obtain ⟨vq, hv, h⟩ := except_isOk_bind h
  refine ⟨?_, ?_, ?_, ?_⟩
  · rw [expectNum_ok hp]; rfl
  · rw [expectNum_ok hm]; rfl
  · rw [expectNum_ok hg]; rfl
  · rw [expectNum_ok hv]; rfl

theorem findFirstList_length_le {n : Nat} :
    ∀ {inner : List (String × JValue)} {l : List JValue},
    (∀ p ∈ inner, ∀ xs : List JValue, p.2 = .arr xs → xs.length ≤ n) →
    findFirstList inner = some l → l.length ≤ n := by
  intro inner
  induction inner with
  | nil => intro l _ hf; cases hf
  | cons p rest ih =>
    intro l hall hf
    obtain ⟨k, v⟩ := p
    cases v <;> simp only [findFirstList] at hf
    case arr items =>
      cases hf
      exact hall ⟨k, .arr l⟩ (by simp) l rfl
    all_goals exact ih (fun q hq => hall q (List.mem_cons_of_mem _ hq)) hf

theorem extract_tokens_length_le {n : Nat} {j : JValue}
    (h : body_lists_le n j = true) : (extract_tokens j).length ≤ n := by
  cases j <;> simp [extract_tokens]
  case obj entries =>
    have h' : (match listLookup entries "data" with
      | some (.obj inner) =>
        inner.all fun p =>
          match p.2 with
          | JValue.arr xs => xs.length ≤ n
          | _ => true
      | _ => true) = true := h
    cases hd : listLookup entries "data" with
    | none => simp
    | some v =>
      rw [hd] at h'
      cases v <;> simp
      case obj inner =>
        have h'' : (inner.all fun p =>
          match p.2 with
          | JValue.arr xs => xs.length ≤ n
          | _ => true) = true := h'
        have hall : ∀ p ∈ inner, ∀ xs : List JValue, p.2 = .arr xs → xs.length ≤ n := by
          intro p hp xs hxs
          have hh := List.all_eq_true.mp h'' p hp
          rw [hxs] at hh
          simpa using hh
        cases hf : findFirstList inner with
        | none => simp
        | some l =>
          simpa using findFirstList_length_le hall hf

theorem handle_response_length_le (n : Nat) (o : UpstreamOutcome)
    (h : data_lists_le n o = true) : (handle_response o).length ≤ n := by
  cases o with
  | requestError => simp [handle_response]
  | response s body =>
    cases body with
    | none =>
      by_cases hc : s < 200 ∨ 299 < s
      · simp [handle_response, hc]
      · simp [handle_response, hc]
    | some j =>
      by_cases hc : s < 200 ∨ 299 < s
      · simp [handle_response, hc]
      · have hr : handle_response (.response s (some j)) = extract_tokens j := by
          simp [handle_response, hc]
        rw [hr]
        exact extract_tokens_length_le h

/-- C1: for every JSON body delivered with a success status, fetch returns
exactly what the spec's shape-resolution rule prescribes: the first
sequence-valued entry of the `data` mapping in iteration order, skipping
non-sequence entries, and the empty sequence when no entry qualifies, when
the `data` value is not a mapping, when the key is absent, or when the
top-level value is not a mapping (`spec_extract` transcribes the spec's
words; `extract_tokens` transcribes the code). -/
theorem c1_fetch_shape_resolution (L : Int) (upstream : String → UpstreamOutcome)
    (s : Nat) (j : JValue) (hs1 : 200 ≤ s) (hs2 : s ≤ 299)
    (hu : upstream (request_url L) = .response s (some j)) :
    get_top_pumping_tokens L upstream = spec_extract j := by
  unfold get_top_pumping_tokens
  rw [hu]
  unfold handle_response
  simp [Nat.not_lt.mpr hs1, Nat.not_lt.mpr hs2, extract_tokens_eq_spec]

/-- Witness for C1: the spec's own example body, with a non-list entry
preceding the `rank` list; fetch returns the two records of `rank`. -/
theorem c1_fetch_shape_resolution_witness :
    (200 ≤ 200 ∧ 200 ≤ 299 ∧
      upstream_rank (request_url 10) = .response 200 (some (.obj [("data", .obj
        [("x", .str "not a list"), ("rank", .arr [.num 1, .num 2])])]))) ∧
    get_top_pumping_tokens 10 upstream_rank = spec_extract (.obj [("data", .obj
      [("x", .str "not a list"), ("rank", .arr [.num 1, .num 2])])]) :=
  ⟨⟨by decide, by decide, rfl⟩,
    c1_fetch_shape_resolution 10 upstream_rank 200 _ (by decide) (by decide) rfl⟩

/-- C2: the limit used in the upstream request is `min 50 (max 1 L)` — it is
the first query parameter of the URL actually requested — always lies in
[1, 50], and in particular clamp(0) = 1, clamp(999) = 50, clamp(25) = 25;
out-of-range input is overridden, never rejected (the fetch function is
total in the limit). -/
theorem c2_limit_clamped (L : Int) :
    clamp_limit L = min 50 (max 1 L) ∧
    1 ≤ clamp_limit L ∧ clamp_limit L ≤ 50 ∧
    (query_params (request_url L)).head? =
      some ("limit", toString (clamp_limit L)) ∧
    clamp_limit 0 = 1 ∧ clamp_limit 999 = 50 ∧ clamp_limit 25 = 25 :=
  ⟨rfl, clamp_limit_ge_one L, clamp_limit_le_fifty L,
    by rw [query_params_request_url]; rfl, by decide, by decide, by decide⟩

/-- C3: every failing upstream interaction — any 4xx/5xx status regardless
of body, a network-level failure, or a success status with a non-JSON body —
makes fetch return the empty sequence. Fetch is a total function consulting
the network exactly once, so it neither raises nor retries. -/
theorem c3_failures_empty (L : Int) (s s2 : Nat) (body : Option JValue)
    (hs : 400 ≤ s) (h2a : 200 ≤ s2) (h2b : s2 ≤ 299)
    (u1 u2 u3 : String → UpstreamOutcome)
    (hu1 : u1 (request_url L) = .response s body)
    (hu2 : u2 (request_url L) = .requestError)
    (hu3 : u3 (request_url L) = .response s2 none) :
    get_top_pumping_tokens L u1 = [] ∧
    get_top_pumping_tokens L u2 = [] ∧
    get_top_pumping_tokens L u3 = [] := by
  refine ⟨?_, ?_, ?_⟩
  · unfold get_top_pumping_tokens
    rw [hu1]
    unfold handle_response
    have hgt : 299 < s := lt_of_lt_of_le (by norm_num) hs
    simp [hgt]
  · unfold get_top_pumping_tokens
    rw [hu2]
    rfl
  · unfold get_top_pumping_tokens
    rw [hu3]
    unfold handle_response
    simp [Nat.not_lt.mpr h2a, Nat.not_lt.mpr h2b]

/-- Witness for C3: a 500 response with a well-formed body, a network error,
and a 200 response with an unparsable body all yield the empty list. -/
theorem c3_failures_empty_witness :
    (400 ≤ 500 ∧ 200 ≤ 200 ∧ 200 ≤ 299 ∧
      upstream_500 (request_url 10) =
        .response 500 (some (.obj [("data", .obj [("rank", .arr [.num 1])])])) ∧
      upstream_neterr (request_url 10) = .requestError ∧
      upstream_badjson (request_url 10) = .response 200 none) ∧
    get_top_pumping_tokens 10 upstream_500 = [] ∧
    get_top_pumping_tokens 10 upstream_neterr = [] ∧
    get_top_pumping_tokens 10 upstream_badjson = [] :=
  ⟨⟨by decide, by decide, by decide, rfl, rfl, rfl⟩,
    c3_failures_empty 10 500 200 _ (by decide) (by decide) (by decide)
      _ _ _ rfl rfl rfl⟩

/-- C4 counterexample: the claim says format({}) produces a block where
every field shows the placeholder, but the code feeds the `N/A` default of
the absent `price` field into the `.8f` format spec and raises instead of
returning a block. -/
theorem c4_counterexample :
    format_token_info render_local_time (.obj []) =
      .error "ValueError: Unknown format code f for object of type str" := rfl

/-- C4 amended: the placeholder literal is `N/A`, and only the fields
without numeric format specs render it when absent; the four numerically
formatted fields apply their format spec unconditionally, so a record
missing any of them — in particular the empty record — raises a formatting
error instead of producing a block. When the four numeric fields are
present, every other absent field shows `N/A` and both timestamps default to
epoch 0 (rendered by the local-time function at 0). -/
theorem c4_amended (fmtTime : ℚ → String) :
    format_token_info fmtTime (.obj []) =
      .error "ValueError: Unknown format code f for object of type str" ∧
    format_token_info fmtTime record_min_numeric =
      .ok (String.intercalate "\n"
        ["Symbol: N/A", "Name: N/A", "Price: $0.00000000", "Market Cap: $0.00",
         "Created: " ++ fmtTime 0, "Last Trade: " ++ fmtTime 0, "Progress: 0.00%",
         "Holder Count: N/A", "Volume (1h): $0.00", "Price Change (5m): N/A%",
         "Website: N/A", "Twitter: N/A", "Telegram: N/A", "--------------------"]) :=
  ⟨rfl, rfl⟩

/-- C5 counterexample: the code never truncates the extracted list, so with
limit 0 (clamped to 1) and an upstream `rank` list of two records, fetch
returns both — exceeding the clamped limit. -/
theorem c5_counterexample :
    get_top_pumping_tokens 0 upstream_rank = [.num 1, .num 2] ∧
    clamp_limit 0 = 1 ∧
    ¬ (get_top_pumping_tokens 0 upstream_rank).length ≤ (clamp_limit 0).toNat := by
  refine ⟨rfl, by decide, by decide⟩

/-- C5 amended: fetch always returns a (possibly empty) sequence — it is a
total function into lists — but the code performs no truncation, so the
length bound `clamp L` holds only under the assumption that every list
entry of the upstream `data` mapping is itself bounded by the clamped
limit. -/
theorem c5_amended_length_bound (L : Int) (upstream : String → UpstreamOutcome)
    (h : data_lists_le (clamp_limit L).toNat (upstream (request_url L)) = true) :
    (get_top_pumping_tokens L upstream).length ≤ (clamp_limit L).toNat :=
  handle_response_length_le _ _ h

/-- Witness for C5 amended: with limit 10, the two-record `rank` list is
within the clamped bound and so is the fetched result. -/
theorem c5_amended_length_bound_witness :
    data_lists_le (clamp_limit 10).toNat (upstream_rank (request_url 10)) = true ∧
    (get_top_pumping_tokens 10 upstream_rank).length ≤ (clamp_limit 10).toNat :=
  ⟨by decide, c5_amended_length_bound 10 upstream_rank (by decide)⟩

/-- C6 counterexample: the claim says a non-empty fetch yields the tokens
envelope, but a fetched record that is the empty dict makes the formatter
raise, and the handler raises with it instead of returning the envelope. -/
theorem c6_counterexample :
    get_top_pumping_tokens 10 upstream_empty_record = [.obj []] ∧
    get_top_tokens render_local_time upstream_empty_record 10 =
      .error "ValueError: Unknown format code f for object of type str" :=
  ⟨rfl, rfl⟩

/-- C6 amended: provided every fetched record formats without raising, the
handler returns the tokens envelope with one block per fetched record in
order on a non-empty fetch, and exactly the fixed error envelope on an empty
fetch; a record that fails to format makes the whole request fail instead
(the spec's section 7 kind 4). -/
theorem c6_amended (fmtTime : ℚ → String) (upstream : String → UpstreamOutcome)
    (L : Int) (formatted : List String)
    (h : (get_top_pumping_tokens L upstream).mapM (format_token_info fmtTime) =
      Except.ok formatted) :
    get_top_tokens fmtTime upstream L =
      (if (get_top_pumping_tokens L upstream).isEmpty
        then Except.ok (.errorMsg "No token data retrieved.")
        else Except.ok (.tokens formatted)) ∧
    formatted.length = (get_top_pumping_tokens L upstream).length := by
  constructor
  · cases hic : (get_top_pumping_tokens L upstream).isEmpty with
    | true => simp [get_top_tokens, hic, pure, Except.pure]
    | false =>
      have h' : List.mapM.loop (format_token_info fmtTime)
          (get_top_pumping_tokens L upstream) [] = Except.ok formatted := h
      simp [get_top_tokens, hic, h', pure, Except.pure, Bind.bind, Except.bind]
  · exact mapM_ok_length _ _ _ h

/-- Witness for C6 amended: a single well-formed record is fetched,
formatted, and wrapped in the tokens envelope. -/
theorem c6_amended_witness :
    (get_top_pumping_tokens 10 upstream_good).mapM
      (format_token_info render_local_time) = Except.ok [block_min] ∧
    get_top_tokens render_local_time upstream_good 10 =
      Except.ok (.tokens [block_min]) ∧
    [block_min].length = (get_top_pumping_tokens 10 upstream_good).length :=
  ⟨rfl,
    (c6_amended render_local_time upstream_good 10 [block_min] rfl).1,
    (c6_amended render_local_time upstream_good 10 [block_min] rfl).2⟩

/-- C7 counterexample: on the record with only symbol, price and progress,
the formatter raises (the absent `usd_market_cap` field's `N/A` default
meets the comma format spec) instead of producing output containing the two
claimed lines. -/
theorem c7_counterexample :
    format_token_info render_local_time record_c7 =
      .error "ValueError: Cannot specify a comma with s" := rfl

/-- C7 amended: once the record also carries numeric `usd_market_cap` and
`volume_1h` (so that formatting succeeds), the output does include
`Price: $0.00000123` and `Progress: 45.67%`. -/
theorem c7_amended :
    exceptContains (format_token_info render_local_time record_c7_full)
      "Price: $0.00000123" = true ∧
    exceptContains (format_token_info render_local_time record_c7_full)
      "Progress: 45.67%" = true := by
  constructor <;> decide

/-- C8: with the upstream held fixed as a function of the request URL, a
request with limit 0 is handled identically to one with limit 1 — both clamp
to 1, produce the same URL, and hence the same response. -/
theorem c8_limit_zero_eq_one (fmtTime : ℚ → String)
    (upstream : String → UpstreamOutcome) :
    get_top_tokens fmtTime upstream 0 = get_top_tokens fmtTime upstream 1 := by
  have h : request_url 0 = request_url 1 := by decide
  unfold get_top_tokens get_top_pumping_tokens
  rw [h]

/-- C9: fetch issues its single GET at the fixed host and path
(`https://gmgn.ai/defi/quotation/v1/rank/sol/pump`, the part of the URL
before the question mark), with query parameters exactly `limit` (the
clamped value), `orderby=progress`, `direction=desc`, `pump=true`; the
model's request carries no headers (hence no authentication) and consults
the upstream exactly once, with fetch fully determined by the outcome of
that single request. -/
theorem c9_request_shape (L : Int) (upstream : String → UpstreamOutcome) :
    request_url L =
      "https://gmgn.ai/defi/quotation/v1/rank/sol/pump?limit=" ++
        toString (clamp_limit L) ++ "&orderby=progress&direction=desc&pump=true" ∧
    query_params (request_url L) =
      [("limit", toString (clamp_limit L)), ("orderby", "progress"),
       ("direction", "desc"), ("pump", "true")] ∧
    (splitOnChar '?' (request_url L).toList).head? =
      some "https://gmgn.ai/defi/quotation/v1/rank/sol/pump".toList ∧
    get_top_pumping_tokens L upstream = handle_response (upstream (request_url L)) :=
  ⟨rfl, query_params_request_url L, rfl, rfl⟩

/-- C10: a record in which any of `price`, `usd_market_cap`, `progress`,
`volume_1h` is absent (so the string default `N/A` meets the numeric format
spec) or present with a non-numeric value makes the formatter raise; the
formatter returns normally only when all four are present and numeric. -/
theorem c10_missing_numeric_field_raises (fmtTime : ℚ → String)
    (token : List (String × JValue))
    (h : (toNum? (jget token "price" (.str "N/A"))).isSome = false ∨
         (toNum? (jget token "usd_market_cap" (.str "N/A"))).isSome = false ∨
         (toNum? (jget token "progress" (.str "N/A"))).isSome = false ∨
         (toNum? (jget token "volume_1h" (.str "N/A"))).isSome = false) :
    (format_token_info fmtTime (.obj token)).isOk = false := by
  cases hres : (format_token_info fmtTime (.obj token)).isOk with
  | false => rfl
  | true =>
    obtain ⟨h1, h2, h3, h4⟩ := format_isOk_fields fmtTime token hres
    rcases h with h | h | h | h <;> simp_all

/-- Witness for C10: the empty record lacks `price`, and formatting it is
not successful. -/
theorem c10_missing_numeric_field_raises_witness :
    (toNum? (jget ([] : List (String × JValue)) "price" (.str "N/A"))).isSome = false ∧
    (format_token_info render_local_time (.obj [])).isOk = false :=
  ⟨by decide,
    c10_missing_numeric_field_raises render_local_time [] (Or.inl (by decide))⟩

